import Mathlib

/-!
Shallow embedding of `src/roblox_swords.py`, a Blender script that generates
ten low-poly sword meshes.

Modelling conventions:
* Python float literals and arithmetic on them are embedded as exact rationals
  (`ℚ`); every formula in the script is closed-form arithmetic on decimal
  literals, so the rational value mirrors the written formula.
* The host math library's `math.cos` / `math.sin` (used only by
  `create_khopesh`) are external collaborators and are passed as explicit
  function parameters `cos sin : ℚ → ℚ`.
* `bmesh` face construction (`bm.faces.new([bm.verts[i] for i in f_indices])`)
  is embedded by `submit_faces`, which records the faces successfully submitted
  before the first out-of-range vertex lookup and the `IndexError` (if any);
  a raised error propagates, as an uncaught Python exception does, via the
  `Except` monad.
* `join_and_finalize` uses `objects[0]` as the join target, so it raises on an
  empty list and the joined sword inherits the first component's placement.
  The bevel modifier and smooth shading are cosmetic host calls with no effect
  on the geometry data and are not modelled.
-/

namespace RobloxSwords

/-- A vertex is an (x, y, z) coordinate triple, as in the Python tuples. -/
abbrev Vertex := ℚ × ℚ × ℚ

/-- The data of one mesh component created by `create_sword_component`:
its name, its vertex list, its face-index list, and the x-location it is
placed at (`obj.location.x = location`). -/
structure Component where
  name : String
  verts : List Vertex
  faces : List (List ℕ)
  location : ℚ
  deriving DecidableEq

/-- A finished sword: the joined object keeps the name it is given, the
location of the first (active) component, and the component geometry. -/
structure Sword where
  name : String
  location : ℚ
  components : List Component
  deriving DecidableEq

/-- Face-by-face submission to the bmesh builder: for each face the lookups
`bm.verts[i]` are performed; if every index of the face is in range the face
is submitted and processing continues, otherwise an `IndexError` is raised at
that face.  Returns the faces submitted before the error, and the error. -/
def submit_faces (verts : List Vertex) : List (List ℕ) → List (List ℕ) × Option String
  | [] => ([], none)
  | f :: rest =>
    if f.all (fun i => decide (i < verts.length)) then
      let r := submit_faces verts rest
      (f :: r.1, r.2)
    else
      ([], some "IndexError: BMVertSeq index out of range")

/-- Embedding of `create_sword_component(name, verts, faces, location)`:
the vertices are created, then the faces are submitted one by one; an
out-of-range index raises an (uncaught) `IndexError`, otherwise the finished
component is returned. -/
def create_sword_component (name : String) (verts : List Vertex)
    (faces : List (List ℕ)) (location : ℚ) : Except String Component :=
  match (submit_faces verts faces).2 with
  | none => .ok ⟨name, verts, faces, location⟩
  | some e => .error e

/-- Embedding of `join_and_finalize(objects, name)`: `objects[0]` is made the
active object (raising `IndexError` on an empty list) and the objects are
joined into one sword named `name`, whose transform is the first object's. -/
def join_and_finalize (objects : List Component) (name : String) : Except String Sword :=
  match objects with
  | [] => .error "IndexError: list index out of range"
  | o :: rest => .ok ⟨name, o.location, o :: rest⟩

/-! ### Roman gladius (`create_roman_gladius`) -/

def gladius_blade_verts : List Vertex :=
  [(0.08, 0, 0), (-0.08, 0, 0), (-0.08, 0.8, 0), (0.08, 0.8, 0), (0, 1.0, 0)]
def gladius_blade_faces : List (List ℕ) := [[0, 1, 2, 3], [2, 4, 3]]
def gladius_guard_verts : List Vertex :=
  [(-0.2, 0, 0.05), (0.2, 0, 0.05), (0.2, 0, -0.05), (-0.2, 0, -0.05)]
def gladius_guard_faces : List (List ℕ) := [[0, 1, 2, 3]]
def gladius_hilt_verts : List Vertex :=
  [(-0.06, -0.05, 0), (0.06, -0.05, 0), (0.06, -0.5, 0), (-0.06, -0.5, 0)]
def gladius_hilt_faces : List (List ℕ) := [[0, 1, 2, 3]]
def gladius_pommel_verts : List Vertex :=
  [(-0.1, -0.5, 0), (0.1, -0.5, 0), (0, -0.65, 0)]
def gladius_pommel_faces : List (List ℕ) := [[0, 1, 2]]

/-- Embedding of `create_roman_gladius(location)`. -/
def create_roman_gladius (location : ℚ) : Except String Sword := do
  let blade ← create_sword_component "Blade" gladius_blade_verts gladius_blade_faces location
  let guard ← create_sword_component "Guard" gladius_guard_verts gladius_guard_faces location
  let hilt ← create_sword_component "Hilt" gladius_hilt_verts gladius_hilt_faces location
  let pommel ← create_sword_component "Pommel" gladius_pommel_verts gladius_pommel_faces location
  join_and_finalize [blade, guard, hilt, pommel] "Roman_Gladius"

/-! ### Viking sword (`create_viking_sword`) -/

def viking_blade_verts : List Vertex :=
  [(0.07, 0, 0), (-0.07, 0, 0), (-0.02, 1.2, 0), (0.02, 1.2, 0), (0, 1.25, 0)]
def viking_blade_faces : List (List ℕ) := [[0, 1, 2, 3], [2, 4, 3]]
def viking_guard_verts : List Vertex :=
  [(-0.25, 0.05, 0), (0.25, 0.05, 0), (0.2, -0.1, 0), (-0.2, -0.1, 0)]
def viking_guard_faces : List (List ℕ) := [[0, 1, 2, 3]]
def viking_hilt_verts : List Vertex :=
  [(-0.05, -0.1, 0), (0.05, -0.1, 0), (0.05, -0.6, 0), (-0.05, -0.6, 0)]
def viking_hilt_faces : List (List ℕ) := [[0, 1, 2, 3]]
def viking_pommel_verts : List Vertex :=
  [(-0.15, -0.6, 0), (0.15, -0.6, 0), (0.1, -0.75, 0), (-0.1, -0.75, 0)]
def viking_pommel_faces : List (List ℕ) := [[0, 1, 2, 3]]

/-- Embedding of `create_viking_sword(location)`. -/
def create_viking_sword (location : ℚ) : Except String Sword := do
  let blade ← create_sword_component "Blade" viking_blade_verts viking_blade_faces location
  let guard ← create_sword_component "Guard" viking_guard_verts viking_guard_faces location
  let hilt ← create_sword_component "Hilt" viking_hilt_verts viking_hilt_faces location
  let pommel ← create_sword_component "Pommel" viking_pommel_verts viking_pommel_faces location
  join_and_finalize [blade, guard, hilt, pommel] "Viking_Sword"

/-! ### Japanese katana (`create_katana`) -/

/-- The 22 ring vertices of the katana blade: for `i in range(11)`,
`y = i * 0.12`, `x_offset = (1 - (abs(i-5)/5.0)**2) * -0.2`,
`x = 0.05 * (1 - (i/10.0)*0.5) + x_offset`, appending `(x, y, 0)` and
`(x - 0.1, y, 0)`. -/
def katana_ring_verts : List Vertex :=
  ((List.range 11).map (fun i =>
    let y : ℚ := (i : ℚ) * 0.12
    let x_offset : ℚ := (1 - (|(i : ℚ) - 5| / 5.0) ^ 2) * (-0.2)
    let x : ℚ := 0.05 * (1 - ((i : ℚ) / 10.0) * 0.5) + x_offset
    [(x, y, 0), (x - 0.1, y, 0)])).flatten

/-- The katana blade vertex list: the 22 ring vertices followed by the tip
vertex `(-0.2, 1.25, 0)`. -/
def katana_blade_verts : List Vertex :=
  katana_ring_verts ++ [(-0.2, 1.25, 0)]

/-- The katana blade faces: for `i in range(10)` the quad
`(i*2, i*2+1, i*2+3, i*2+2)`, then the closing triangle `(20, 21, 22)`. -/
def katana_blade_faces : List (List ℕ) :=
  (List.range 10).map (fun i => [i * 2, i * 2 + 1, i * 2 + 3, i * 2 + 2]) ++ [[20, 21, 22]]

def katana_guard_verts : List Vertex :=
  [(-0.1, 0, 0.05), (0.1, 0, 0.05), (0.1, 0, -0.05), (-0.1, 0, -0.05)]
def katana_guard_faces : List (List ℕ) := [[0, 1, 2, 3]]
def katana_hilt_verts : List Vertex :=
  [(-0.06, -0.05, 0), (0.06, -0.05, 0), (0.06, -0.4, 0), (-0.06, -0.4, 0)]
def katana_hilt_faces : List (List ℕ) := [[0, 1, 2, 3]]

/-- Embedding of `create_katana(location)`. -/
def create_katana (location : ℚ) : Except String Sword := do
  let blade ← create_sword_component "Blade" katana_blade_verts katana_blade_faces location
  let guard ← create_sword_component "Guard" katana_guard_verts katana_guard_faces location
  let hilt ← create_sword_component "Hilt" katana_hilt_verts katana_hilt_faces location
  join_and_finalize [blade, guard, hilt] "Japanese_Katana"

/-! ### Egyptian khopesh (`create_khopesh`) -/

/-- The 24 khopesh blade vertices: for `i in range(12)`,
`angle = (i/11.0) * 2.5 + 0.5`, `r = 0.5 + (i/11.0) * 0.3`,
`x = r * -cos(angle)`, `y = r * sin(angle) + 0.3`, appending
`(x, y, 0.05)` and `(x, y, -0.05)`.  `cos` and `sin` are the host math
library's functions, passed as parameters. -/
def khopesh_blade_verts (cos sin : ℚ → ℚ) : List Vertex :=
  ((List.range 12).map (fun i =>
    let angle : ℚ := ((i : ℚ) / 11.0) * 2.5 + 0.5
    let r : ℚ := 0.5 + ((i : ℚ) / 11.0) * 0.3
    let x : ℚ := r * (-(cos angle))
    let y : ℚ := r * sin angle + 0.3
    [(x, y, 0.05), (x, y, -0.05)])).flatten

/-- The khopesh blade faces: for `i in range(11)` the quad
`(i*2, i*2+1, i*2+3, i*2+2)`; no closing triangle. -/
def khopesh_blade_faces : List (List ℕ) :=
  (List.range 11).map (fun i => [i * 2, i * 2 + 1, i * 2 + 3, i * 2 + 2])

def khopesh_hilt_verts : List Vertex :=
  [(-0.06, 0.2, 0), (0.06, 0.2, 0), (0.06, -0.3, 0), (-0.06, -0.3, 0)]
def khopesh_hilt_faces : List (List ℕ) := [[0, 1, 2, 3]]

/-- Embedding of `create_khopesh(location)`. -/
def create_khopesh (cos sin : ℚ → ℚ) (location : ℚ) : Except String Sword := do
  let blade ← create_sword_component "Blade" (khopesh_blade_verts cos sin) khopesh_blade_faces location
  let hilt ← create_sword_component "Hilt" khopesh_hilt_verts khopesh_hilt_faces location
  join_and_finalize [blade, hilt] "Egyptian_Khopesh"

/-! ### Persian scimitar (`create_scimitar`) -/

/-- The 24 scimitar ring vertices: for `i in range(12)`,
`x_base = (i/11.0) * 1.2`, `y_base = (x_base**2) * 0.2`,
`width = 0.08 * (1 - (i/22.0))`, appending `(x_base - width, y_base, 0)` and
`(x_base + width, y_base, 0)`.  (The `angle` local of the Python loop is
unused there and omitted.) -/
def scimitar_ring_verts : List Vertex :=
  ((List.range 12).map (fun i =>
    let x_base : ℚ := ((i : ℚ) / 11.0) * 1.2
    let y_base : ℚ := x_base ^ 2 * 0.2
    let width : ℚ := 0.08 * (1 - (i : ℚ) / 22.0)
    [(x_base - width, y_base, 0), (x_base + width, y_base, 0)])).flatten

/-- The scimitar blade vertices: 24 ring vertices plus the tip
`(1.25, (1.2**2) * 0.2 + 0.05, 0)`. -/
def scimitar_blade_verts : List Vertex :=
  scimitar_ring_verts ++ [(1.25, (1.2 : ℚ) ^ 2 * 0.2 + 0.05, 0)]

/-- The scimitar blade faces: for `i in range(11)` the quad
`(i*2, i*2+1, i*2+3, i*2+2)`, then the closing triangle `(22, 23, 24)`. -/
def scimitar_blade_faces : List (List ℕ) :=
  (List.range 11).map (fun i => [i * 2, i * 2 + 1, i * 2 + 3, i * 2 + 2]) ++ [[22, 23, 24]]

def scimitar_guard_verts : List Vertex :=
  [(-0.15, 0.05, 0.05), (0.15, -0.05, 0.05), (0.15, -0.05, -0.05), (-0.15, 0.05, -0.05)]
def scimitar_guard_faces : List (List ℕ) := [[0, 1, 2, 3]]
def scimitar_hilt_verts : List Vertex :=
  [(-0.05, 0, 0), (0.05, 0, 0), (0.0, -0.4, 0)]
def scimitar_hilt_faces : List (List ℕ) := [[0, 1, 2]]

/-- Embedding of `create_scimitar(location)`. -/
def create_scimitar (location : ℚ) : Except String Sword := do
  let blade ← create_sword_component "Blade" scimitar_blade_verts scimitar_blade_faces location
  let guard ← create_sword_component "Guard" scimitar_guard_verts scimitar_guard_faces location
  let hilt ← create_sword_component "Hilt" scimitar_hilt_verts scimitar_hilt_faces location
  join_and_finalize [blade, guard, hilt] "Persian_Scimitar"

/-! ### Scottish claymore (`create_claymore`) -/

def claymore_blade_verts : List Vertex :=
  [(0.06, 0, 0), (-0.06, 0, 0), (-0.04, 1.5, 0), (0.04, 1.5, 0)]
def claymore_blade_faces : List (List ℕ) := [[0, 1, 2, 3]]
def claymore_guard_verts : List Vertex :=
  [(-0.4, 0.1, 0), (0.4, 0.1, 0), (0.3, -0.1, 0), (-0.3, -0.1, 0)]
def claymore_guard_faces : List (List ℕ) := [[0, 1, 2, 3]]
def claymore_hilt_verts : List Vertex :=
  [(-0.05, -0.1, 0), (0.05, -0.1, 0), (0.05, -0.7, 0), (-0.05, -0.7, 0)]
def claymore_hilt_faces : List (List ℕ) := [[0, 1, 2, 3]]
def claymore_pommel_verts : List Vertex :=
  [(-0.1, -0.7, 0), (0.1, -0.7, 0), (0, -0.8, 0)]
def claymore_pommel_faces : List (List ℕ) := [[0, 1, 2]]

/-- Embedding of `create_claymore(location)`. -/
def create_claymore (location : ℚ) : Except String Sword := do
  let blade ← create_sword_component "Blade" claymore_blade_verts claymore_blade_faces location
  let guard ← create_sword_component "Guard" claymore_guard_verts claymore_guard_faces location
  let hilt ← create_sword_component "Hilt" claymore_hilt_verts claymore_hilt_faces location
  let pommel ← create_sword_component "Pommel" claymore_pommel_verts claymore_pommel_faces location
  join_and_finalize [blade, guard, hilt, pommel] "Scottish_Claymore"

/-! ### European longsword (`create_longsword`) -/

def longsword_blade_verts : List Vertex :=
  [(0.07, 0, 0), (-0.07, 0, 0), (-0.01, 1.3, 0), (0.01, 1.3, 0), (0, 1.35, 0)]
def longsword_blade_faces : List (List ℕ) := [[0, 1, 2, 3], [2, 4, 3]]
def longsword_guard_verts : List Vertex :=
  [(-0.3, 0.05, 0), (0.3, 0.05, 0), (0.3, -0.05, 0), (-0.3, -0.05, 0)]
def longsword_guard_faces : List (List ℕ) := [[0, 1, 2, 3]]
def longsword_hilt_verts : List Vertex :=
  [(-0.05, -0.05, 0), (0.05, -0.05, 0), (0.05, -0.6, 0), (-0.05, -0.6, 0)]
def longsword_hilt_faces : List (List ℕ) := [[0, 1, 2, 3]]
def longsword_pommel_verts : List Vertex :=
  [(-0.1, -0.6, 0), (0.1, -0.6, 0), (0, -0.7, 0)]
def longsword_pommel_faces : List (List ℕ) := [[0, 1, 2]]

/-- Embedding of `create_longsword(location)`. -/
def create_longsword (location : ℚ) : Except String Sword := do
  let blade ← create_sword_component "Blade" longsword_blade_verts longsword_blade_faces location
  let guard ← create_sword_component "Guard" longsword_guard_verts longsword_guard_faces location
  let hilt ← create_sword_component "Hilt" longsword_hilt_verts longsword_hilt_faces location
  let pommel ← create_sword_component "Pommel" longsword_pommel_verts longsword_pommel_faces location
  join_and_finalize [blade, guard, hilt, pommel] "European_Longsword"

/-! ### Chinese dao (`create_dao`) -/

/-- The 20 dao ring vertices: for `i in range(10)`, `x = i * 0.12`,
`y = (x**2) * 0.15`, `w = 0.09 * (1 - (i/20))`, appending `(x-w, y, 0)` and
`(x+w, y, 0)`. -/
def dao_ring_verts : List Vertex :=
  ((List.range 10).map (fun i =>
    let x : ℚ := (i : ℚ) * 0.12
    let y : ℚ := x ^ 2 * 0.15
    let w : ℚ := 0.09 * (1 - (i : ℚ) / 20)
    [(x - w, y, 0), (x + w, y, 0)])).flatten

/-- The dao blade vertices: 20 ring vertices plus the tip
`(1.2, (1.1**2) * 0.15 + 0.05, 0)`. -/
def dao_blade_verts : List Vertex :=
  dao_ring_verts ++ [(1.2, (1.1 : ℚ) ^ 2 * 0.15 + 0.05, 0)]

/-- The dao blade faces: `[(i*2, i*2+1, i*2+3, i*2+2) for i in range(9)]`
plus the closing triangle `(18, 19, 20)`. -/
def dao_blade_faces : List (List ℕ) :=
  (List.range 9).map (fun i => [i * 2, i * 2 + 1, i * 2 + 3, i * 2 + 2]) ++ [[18, 19, 20]]

def dao_guard_verts : List Vertex :=
  [(-0.08, -0.02, 0.05), (0.08, -0.02, 0.05), (0.08, -0.02, -0.05), (-0.08, -0.02, -0.05)]
def dao_guard_faces : List (List ℕ) := [[0, 1, 2, 3]]
def dao_hilt_verts : List Vertex :=
  [(-0.06, -0.02, 0), (0.06, -0.02, 0), (0.04, -0.3, 0), (-0.04, -0.3, 0)]
def dao_hilt_faces : List (List ℕ) := [[0, 1, 2, 3]]

/-- Embedding of `create_dao(location)`. -/
def create_dao (location : ℚ) : Except String Sword := do
  let blade ← create_sword_component "Blade" dao_blade_verts dao_blade_faces location
  let guard ← create_sword_component "Guard" dao_guard_verts dao_guard_faces location
  let hilt ← create_sword_component "Hilt" dao_hilt_verts dao_hilt_faces location
  join_and_finalize [blade, guard, hilt] "Chinese_Dao"

/-! ### Indian khanda (`create_khanda`) -/

def khanda_blade_verts : List Vertex :=
  [(0.1, 0, 0), (-0.1, 0, 0), (-0.1, 1.1, 0), (0.1, 1.1, 0)]
def khanda_blade_faces : List (List ℕ) := [[0, 1, 2, 3]]
def khanda_guard_verts : List Vertex :=
  [(-0.2, 0, 0), (0.2, 0, 0), (0.2, -0.1, 0), (-0.2, -0.1, 0)]
def khanda_guard_faces : List (List ℕ) := [[0, 1, 2, 3]]
def khanda_hilt_verts : List Vertex :=
  [(-0.06, -0.1, 0), (0.06, -0.1, 0), (0.06, -0.5, 0), (-0.06, -0.5, 0)]
def khanda_hilt_faces : List (List ℕ) := [[0, 1, 2, 3]]
def khanda_pommel_verts : List Vertex :=
  [(-0.1, -0.5, 0), (0.1, -0.5, 0), (0.1, -0.6, 0), (-0.1, -0.6, 0)]
def khanda_pommel_faces : List (List ℕ) := [[0, 1, 2, 3]]
def khanda_spike_verts : List Vertex :=
  [(0.02, -0.6, 0), (-0.02, -0.6, 0), (0, -0.8, 0)]
def khanda_spike_faces : List (List ℕ) := [[0, 1, 2]]

/-- Embedding of `create_khanda(location)`. -/
def create_khanda (location : ℚ) : Except String Sword := do
  let blade ← create_sword_component "Blade" khanda_blade_verts khanda_blade_faces location
  let guard ← create_sword_component "Guard" khanda_guard_verts khanda_guard_faces location
  let hilt ← create_sword_component "Hilt" khanda_hilt_verts khanda_hilt_faces location
  let pommel ← create_sword_component "Pommel" khanda_pommel_verts khanda_pommel_faces location
  let pommel_spike ← create_sword_component "Pommel_Spike" khanda_spike_verts khanda_spike_faces location
  join_and_finalize [blade, guard, hilt, pommel, pommel_spike] "Indian_Khanda"

/-! ### German zweihander (`create_zweihander`) -/

def zweihander_blade_verts : List Vertex :=
  [(0.07, 0, 0), (-0.07, 0, 0), (-0.05, 1.7, 0), (0.05, 1.7, 0)]
def zweihander_blade_faces : List (List ℕ) := [[0, 1, 2, 3]]
def zweihander_hooks_verts : List Vertex :=
  [(-0.2, 0.4, 0), (0.2, 0.4, 0), (0.15, 0.3, 0), (-0.15, 0.3, 0)]
def zweihander_hooks_faces : List (List ℕ) := [[0, 1, 2, 3]]
def zweihander_guard_verts : List Vertex :=
  [(-0.4, 0.05, 0), (0.4, 0.05, 0), (0.4, -0.05, 0), (-0.4, -0.05, 0)]
def zweihander_guard_faces : List (List ℕ) := [[0, 1, 2, 3]]
def zweihander_hilt_verts : List Vertex :=
  [(-0.05, -0.05, 0), (0.05, -0.05, 0), (0.05, -0.8, 0), (-0.05, -0.8, 0)]
def zweihander_hilt_faces : List (List ℕ) := [[0, 1, 2, 3]]
def zweihander_pommel_verts : List Vertex :=
  [(-0.1, -0.8, 0), (0.1, -0.8, 0), (0, -0.9, 0)]
def zweihander_pommel_faces : List (List ℕ) := [[0, 1, 2]]

/-- Embedding of `create_zweihander(location)`. -/
def create_zweihander (location : ℚ) : Except String Sword := do
  let blade ← create_sword_component "Blade" zweihander_blade_verts zweihander_blade_faces location
  let parry_hooks ← create_sword_component "Parry_Hooks" zweihander_hooks_verts zweihander_hooks_faces location
  let guard ← create_sword_component "Guard" zweihander_guard_verts zweihander_guard_faces location
  let hilt ← create_sword_component "Hilt" zweihander_hilt_verts zweihander_hilt_faces location
  let pommel ← create_sword_component "Pommel" zweihander_pommel_verts zweihander_pommel_faces location
  join_and_finalize [blade, parry_hooks, guard, hilt, pommel] "German_Zweihander"

/-! ### The main routine -/

/-- The `sword_functions` list of `main`, in source order. -/
def sword_functions (cos sin : ℚ → ℚ) : List (ℚ → Except String Sword) :=
  [create_roman_gladius, create_viking_sword, create_katana, create_khopesh cos sin,
   create_scimitar, create_claymore, create_longsword, create_dao, create_khanda,
   create_zweihander]

/-- `spacing = 2.0`, the distance between swords in `main`. -/
def spacing : ℚ := 2.0

/-- The body of `main` after `clear_scene()`: for each
`i, create_func in enumerate(sword_functions)` run
`create_func(i * spacing)`.  An uncaught exception in any style aborts the
whole run. -/
def main_run (cos sin : ℚ → ℚ) : Except String (List Sword) :=
  (sword_functions cos sin).enum.mapM (fun p => p.2 ((p.1 : ℚ) * spacing))

/-! ### Observations used by the verification -/

/-- The number of quadrilateral faces in a face list. -/
def quad_count (faces : List (List ℕ)) : ℕ :=
  (faces.filter (fun f => f.length == 4)).length

/-- The number of triangular faces in a face list. -/
def tri_count (faces : List (List ℕ)) : ℕ :=
  (faces.filter (fun f => f.length == 3)).length

/-- The number of components an assembled sword was joined from, `none` when
the style function raised. -/
def component_count : Except String Sword → Option ℕ
  | .ok s => some s.components.length
  | .error _ => none

/-- The placement-independent data of a component: name, vertices, faces. -/
def component_data (c : Component) : String × List Vertex × List (List ℕ) :=
  (c.name, c.verts, c.faces)

/-- The placement-independent data of a style function's result. -/
def sword_data (e : Except String Sword) :
    Except String (String × List (String × List Vertex × List (List ℕ))) :=
  e.map (fun s => (s.name, s.components.map component_data))

/-- The arguments of one `create_sword_component` call. -/
structure ComponentSpec where
  name : String
  verts : List Vertex
  faces : List (List ℕ)
  location : ℚ
  deriving DecidableEq

/-- Sequential creation of several components, as a style function performs it:
an `IndexError` raised by one call propagates and aborts the rest. -/
def run_components : List ComponentSpec → Except String (List Component)
  | [] => .ok []
  | sp :: rest => do
      let c ← create_sword_component sp.name sp.verts sp.faces sp.location
      let cs ← run_components rest
      .ok (c :: cs)

/-- The face lists of all 37 components of the 10 styles, in source order. -/
def all_style_faces : List (List (List ℕ)) :=
  [gladius_blade_faces, gladius_guard_faces, gladius_hilt_faces, gladius_pommel_faces,
   viking_blade_faces, viking_guard_faces, viking_hilt_faces, viking_pommel_faces,
   katana_blade_faces, katana_guard_faces, katana_hilt_faces,
   khopesh_blade_faces, khopesh_hilt_faces,
   scimitar_blade_faces, scimitar_guard_faces, scimitar_hilt_faces,
   claymore_blade_faces, claymore_guard_faces, claymore_hilt_faces, claymore_pommel_faces,
   longsword_blade_faces, longsword_guard_faces, longsword_hilt_faces, longsword_pommel_faces,
   dao_blade_faces, dao_guard_faces, dao_hilt_faces,
   khanda_blade_faces, khanda_guard_faces, khanda_hilt_faces, khanda_pommel_faces,
   khanda_spike_faces,
   zweihander_blade_faces, zweihander_hooks_faces, zweihander_guard_faces,
   zweihander_hilt_faces, zweihander_pommel_faces]

/-! ### The Python tokenizer's view of the `main` docstring line

The script's `main` has the docstring line
`    \x22\x22\x22Main function to create all swords.\x22\x22\x22\x22`
(four closing quote characters).  The CPython tokenizer closes a
triple-quoted string at the first occurrence of three consecutive quotes, so
the fourth quote opens a fresh single-line string literal that reaches the end
of the line unterminated — a `SyntaxError`, raised before any code of the
file runs.  The fragment of the tokenizer relevant to this line (double-quoted
string literals, with backslash escapes) is modelled below. -/

/-- Scan the body of a short (one-line) double-quoted string, after its opening
quote: a backslash escapes the following character, a quote closes the
literal, and reaching the end of the line first is an error. -/
def scanShort : List Char → Except String (List Char × List Char)
  | [] => .error "unterminated string literal"
  | '\x22' :: rest => .ok ([], rest)
  | '\\' :: c :: rest => do
      let r ← scanShort rest
      .ok ('\\' :: c :: r.1, r.2)
  | c :: rest => do
      let r ← scanShort rest
      .ok (c :: r.1, r.2)

/-- Scan the body of a triple-quoted string, after its opening `\x22\x22\x22`:
the literal closes at the first three consecutive unescaped quotes. -/
def scanTriple : List Char → Except String (List Char × List Char)
  | '\x22' :: '\x22' :: '\x22' :: rest => .ok ([], rest)
  | [] => .error "unterminated triple-quoted string"
  | '\\' :: c :: rest => do
      let r ← scanTriple rest
      .ok ('\\' :: c :: r.1, r.2)
  | c :: rest => do
      let r ← scanTriple rest
      .ok (c :: r.1, r.2)

/-- Fuel-indexed scan of one physical line for double-quoted string literals:
characters outside strings are skipped, each completed literal's body is
collected in order, and an unterminated literal is an error. -/
def lexStringsAux : ℕ → List Char → Except String (List (List Char))
  | 0, _ => .error "out of fuel"
  | _, [] => .ok []
  | fuel + 1, '\x22' :: '\x22' :: '\x22' :: rest => do
      let r ← scanTriple rest
      let ts ← lexStringsAux fuel r.2
      .ok (r.1 :: ts)
  | fuel + 1, '\x22' :: rest => do
      let r ← scanShort rest
      let ts ← lexStringsAux fuel r.2
      .ok (r.1 :: ts)
  | fuel + 1, _ :: rest => lexStringsAux fuel rest

/-- Scan one physical line for double-quoted string literals. -/
def lex_line_strings (cs : List Char) : Except String (List (List Char)) :=
  lexStringsAux (cs.length + 1) cs

/-- Line 242 of `src/roblox_swords.py`, exactly as written: the docstring of
`main`, whose closing delimiter is followed by a fourth quote character. -/
def main_docstring_line : String :=
  "    \x22\x22\x22Main function to create all swords.\x22\x22\x22\x22"

/-! ## Helper lemmas -/

theorem except_error_bind {α β : Type} (e : String) (f : α → Except String β) :
    (Except.error e >>= f) = Except.error e := rfl

theorem except_ok_bind {α β : Type} (a : α) (f : α → Except String β) :
    (Except.ok a >>= f) = f a := rfl

/-- The faces actually submitted to the bmesh builder are the longest prefix of
in-range faces before the first out-of-range one. -/
theorem submit_faces_fst (verts : List Vertex) (faces : List (List ℕ)) :
    (submit_faces verts faces).1 =
      faces.takeWhile (fun f => f.all (fun i => decide (i < verts.length))) := by
  induction faces with
  | nil => rfl
  | cons f rest ih =>
    cases hfa : f.all (fun i => decide (i < verts.length)) with
    | true => simp [submit_faces, hfa, ih, List.takeWhile_cons]
    | false => simp [submit_faces, hfa, List.takeWhile_cons]

/-- Face submission raises no `IndexError` exactly when every index of every
face is in range of the vertex list. -/
theorem submit_faces_none_iff (verts : List Vertex) (faces : List (List ℕ)) :
    (submit_faces verts faces).2 = none ↔ ∀ f ∈ faces, ∀ i ∈ f, i < verts.length := by
  induction faces with
  | nil => simp [submit_faces]
  | cons f rest ih =>
    cases hfa : f.all (fun i => decide (i < verts.length)) with
    | true =>
      have h : ∀ i ∈ f, i < verts.length := by simpa [List.all_eq_true] using hfa
      simp only [submit_faces, hfa, if_true]
      rw [ih]
      constructor
      · intro hrest g hg
        rcases List.mem_cons.mp hg with rfl | hg'
        · exact h
        · exact hrest g hg'
      · intro hall g hg
        exact hall g (by simp [hg])
    | false =>
      have h : ¬ ∀ i ∈ f, i < verts.length := by
        intro hall
        have : f.all (fun i => decide (i < verts.length)) = true := by
          simpa [List.all_eq_true] using hall
        rw [hfa] at this
        cases this
      simp only [submit_faces, hfa, if_false, Bool.false_eq_true]
      constructor
      · intro hsome
        cases hsome
      · intro hall
        exact absurd (fun i hi => hall f (by simp) i hi) h

/-- `create_sword_component` succeeds exactly when every face references only
in-range vertex indices. -/
theorem create_isOk_iff (name : String) (verts : List Vertex)
    (faces : List (List ℕ)) (location : ℚ) :
    (create_sword_component name verts faces location).isOk = true ↔
      ∀ f ∈ faces, ∀ i ∈ f, i < verts.length := by
  rw [← submit_faces_none_iff]
  cases h : (submit_faces verts faces).2 <;>
    simp [create_sword_component, h, Except.isOk, Except.toBool]

/-- A sequence of component creations succeeds as a whole exactly when every
face of every component is in range; a single bad face aborts the whole
sequence, because the `IndexError` propagates. -/
theorem run_components_isOk_iff (specs : List ComponentSpec) :
    (run_components specs).isOk = true ↔
      ∀ sp ∈ specs, ∀ f ∈ sp.faces, ∀ i ∈ f, i < sp.verts.length := by
  induction specs with
  | nil => simp [run_components, Except.isOk, Except.toBool]
  | cons sp rest ih =>
    cases hc : create_sword_component sp.name sp.verts sp.faces sp.location with
    | error e =>
      have hnot : ¬ ∀ f ∈ sp.faces, ∀ i ∈ f, i < sp.verts.length := by
        intro hall
        have := (create_isOk_iff sp.name sp.verts sp.faces sp.location).2 hall
        rw [hc] at this
        simp [Except.isOk, Except.toBool] at this
      simp only [run_components, hc, except_error_bind, Except.isOk, Except.toBool,
        Bool.false_eq_true]
      constructor
      · intro hfalse
        cases hfalse
      · intro hall
        exact absurd (hall sp (by simp)) hnot
    | ok comp =>
      have hok : ∀ f ∈ sp.faces, ∀ i ∈ f, i < sp.verts.length := by
        have := (create_isOk_iff sp.name sp.verts sp.faces sp.location).1
        rw [hc] at this
        exact this rfl
      cases hr : run_components rest with
      | error e =>
        rw [hr] at ih
        simp only [Except.isOk, Except.toBool, Bool.false_eq_true, false_iff] at ih
        simp only [run_components, hc, hr, except_ok_bind, except_error_bind,
          Except.isOk, Except.toBool, Bool.false_eq_true]
        constructor
        · intro hfalse
          cases hfalse
        · intro hall
          exact ih fun q hq => hall q (by simp [hq])
      | ok comps =>
        rw [hr] at ih
        simp only [Except.isOk, Except.toBool, true_iff] at ih
        simp only [run_components, hc, hr, except_ok_bind, Except.isOk, Except.toBool,
          true_iff]
        intro q hq
        rcases List.mem_cons.mp hq with rfl | hq'
        · exact hok
        · exact ih q hq'

/-! ## Claim theorems -/

set_option maxHeartbeats 4000000 in
/-- C1: the body of `main` (as written, for any host `cos`/`sin`) generates
exactly 10 swords, with the pairwise-distinct names Roman_Gladius,
Viking_Sword, Japanese_Katana, Egyptian_Khopesh, Persian_Scimitar,
Scottish_Claymore, European_Longsword, Chinese_Dao, Indian_Khanda,
German_Zweihander in that order, the i-th placed at offset `i * spacing`,
i.e. at 0.0, 2.0, 4.0, …, 18.0: consecutive offsets differ by exactly the
2.0-unit spacing constant and are strictly increasing.  (Note: the claim
speaks of running `main`; the file itself fails to parse, see C2, so this
theorem evaluates the intended body of `main`.) -/
theorem main_body_generates_ten_swords (cos sin : ℚ → ℚ) :
    (main_run cos sin).toOption.map List.length = some 10 ∧
    (main_run cos sin).toOption.map (fun l => l.map Sword.name) =
      some ["Roman_Gladius", "Viking_Sword", "Japanese_Katana", "Egyptian_Khopesh",
        "Persian_Scimitar", "Scottish_Claymore", "European_Longsword", "Chinese_Dao",
        "Indian_Khanda", "German_Zweihander"] ∧
    (["Roman_Gladius", "Viking_Sword", "Japanese_Katana", "Egyptian_Khopesh",
      "Persian_Scimitar", "Scottish_Claymore", "European_Longsword", "Chinese_Dao",
      "Indian_Khanda", "German_Zweihander"] : List String).Nodup ∧
    (main_run cos sin).toOption.map (fun l => l.map Sword.location) =
      some ((List.range 10).map (fun i => (i : ℚ) * spacing)) ∧
    (List.range 10).map (fun i => (i : ℚ) * spacing) =
      [0, 2, 4, 6, 8, 10, 12, 14, 16, 18] ∧
    ([0, 2, 4, 6, 8, 10, 12, 14, 16, 18] : List ℚ).Chain'
      (fun a b => a < b ∧ b - a = spacing) :=
  ⟨rfl, rfl, by decide, rfl, by norm_num [List.range_succ, spacing],
   by norm_num [List.chain'_cons, spacing]⟩

/-- C2: line 242 of the script, the docstring line of `main`, ends in four
consecutive double-quote characters.  The tokenizer closes the triple-quoted
string `Main function to create all swords.` at the first three of them; the
fourth opens a short string literal that is unterminated at the end of the
line, so lexing the line fails (a `SyntaxError`) and no code of the file — in
particular no sword generation and no summary print — can ever run. -/
theorem main_docstring_unterminated_string :
    main_docstring_line.data.take 7 = [' ', ' ', ' ', ' ', '\x22', '\x22', '\x22'] ∧
    scanTriple (main_docstring_line.data.drop 7) =
      .ok ("Main function to create all swords.".data, ['\x22']) ∧
    scanShort [] = .error "unterminated string literal" ∧
    lex_line_strings main_docstring_line.data = .error "unterminated string literal" :=
  ⟨rfl, rfl, rfl, rfl⟩

/-- C3: every index of every face of every component of every style is within
range of that component's own vertex list — in particular the katana blade's
faces, including the closing triangle (20, 21, 22), index its 23-entry vertex
list — so every style function runs all its `create_sword_component` calls
without any `bm.verts[i]` lookup going out of range, for every location and
any host `cos`/`sin`. -/
theorem all_face_indices_in_range (cos sin : ℚ → ℚ) (location : ℚ) :
    (∀ f ∈ katana_blade_faces, ∀ i ∈ f, i < katana_blade_verts.length) ∧
    (create_roman_gladius location).isOk = true ∧
    (create_viking_sword location).isOk = true ∧
    (create_katana location).isOk = true ∧
    (create_khopesh cos sin location).isOk = true ∧
    (create_scimitar location).isOk = true ∧
    (create_claymore location).isOk = true ∧
    (create_longsword location).isOk = true ∧
    (create_dao location).isOk = true ∧
    (create_khanda location).isOk = true ∧
    (create_zweihander location).isOk = true :=
  ⟨by decide, rfl, rfl, rfl, rfl, rfl, rfl, rfl, rfl, rfl, rfl⟩

/-- C4 counterexample: `create_sword_component` does not validate faces before
submission, and an out-of-range index does not abort only that component.  At
the concrete input with vertex list [(0,0,0), (1,0,0), (2,0,0)] and faces
[[0,1,2], [0,9,2]], the first face is already submitted to the bmesh builder
when the bad index 9 raises; and a run of a bad component followed by a good
one errors as a whole — the good component is never created, although on its
own it would succeed. -/
theorem component_error_not_prevalidated_cex :
    (submit_faces [(0, 0, 0), (1, 0, 0), (2, 0, 0)] [[0, 1, 2], [0, 9, 2]]).1 =
      [[0, 1, 2]] ∧
    (submit_faces [(0, 0, 0), (1, 0, 0), (2, 0, 0)] [[0, 1, 2], [0, 9, 2]]).2 =
      some "IndexError: BMVertSeq index out of range" ∧
    run_components [⟨"Bad", [(0, 0, 0)], [[1]], 0⟩, ⟨"Good", [(0, 0, 0)], [[0]], 0⟩] =
      .error "IndexError: BMVertSeq index out of range" ∧
    (run_components [⟨"Good", [(0, 0, 0)], [[0]], 0⟩]).isOk = true :=
  ⟨rfl, rfl, rfl, rfl⟩

/-- C4 amended: an out-of-range face index makes `create_sword_component`
raise an uncaught `IndexError` from the `bm.verts[i]` lookup during
face-by-face construction — there is no validation pass before submission:
the faces before the bad one are already submitted — and the error propagates,
aborting the entire remaining run, not just that component.  Precisely: the
submitted faces are the longest in-range prefix; a component creation succeeds
iff all its face indices are in range; and a sequence of component creations
succeeds iff every component's every face is in range. -/
theorem component_error_semantics (name : String) (verts : List Vertex)
    (faces : List (List ℕ)) (location : ℚ) (specs : List ComponentSpec) :
    (submit_faces verts faces).1 =
      faces.takeWhile (fun f => f.all (fun i => decide (i < verts.length))) ∧
    ((create_sword_component name verts faces location).isOk = true ↔
      ∀ f ∈ faces, ∀ i ∈ f, i < verts.length) ∧
    ((run_components specs).isOk = true ↔
      ∀ sp ∈ specs, ∀ f ∈ sp.faces, ∀ i ∈ f, i < sp.verts.length) :=
  ⟨submit_faces_fst verts faces, create_isOk_iff name verts faces location,
   run_components_isOk_iff specs⟩

/-- C5 counterexample: the katana blade (sample count N = 11) emits its
quadrilateral faces for i in [0, N-1) = [0, 10), not for i in [0, N-2) =
[0, 9) as claimed: its quad faces are exactly those of `List.range 10`, and
differ from those of `List.range 9`. -/
theorem quad_range_off_by_one_cex :
    katana_blade_faces.filter (fun f => f.length == 4) =
      (List.range (11 - 1)).map (fun i => [2 * i, 2 * i + 1, 2 * i + 3, 2 * i + 2]) ∧
    katana_blade_faces.filter (fun f => f.length == 4) ≠
      (List.range (11 - 2)).map (fun i => [2 * i, 2 * i + 1, 2 * i + 3, 2 * i + 2]) :=
  by decide

/-- C5 amended: for every parametric blade generation with sample count N
(two ring vertices per sample), quadrilateral faces are emitted exactly for
i in [0, N-1), each with index order (2i, 2i+1, 2i+3, 2i+2): katana N = 11,
khopesh N = 12, scimitar N = 12, dao N = 10, the last three styles followed by
their closing triangle where present. -/
theorem quad_faces_range :
    katana_blade_faces =
      (List.range (11 - 1)).map (fun i => [2 * i, 2 * i + 1, 2 * i + 3, 2 * i + 2]) ++
        [[20, 21, 22]] ∧
    khopesh_blade_faces =
      (List.range (12 - 1)).map (fun i => [2 * i, 2 * i + 1, 2 * i + 3, 2 * i + 2]) ∧
    scimitar_blade_faces =
      (List.range (12 - 1)).map (fun i => [2 * i, 2 * i + 1, 2 * i + 3, 2 * i + 2]) ++
        [[22, 23, 24]] ∧
    dao_blade_faces =
      (List.range (10 - 1)).map (fun i => [2 * i, 2 * i + 1, 2 * i + 3, 2 * i + 2]) ++
        [[18, 19, 20]] :=
  by decide

/-- C6: each curved-blade component emits exactly N-1 quadrilateral faces plus
at most one closing triangle: katana (N = 11) 10 quads and 1 triangle,
khopesh (N = 12) 11 quads and no triangle, scimitar (N = 12) 11 quads and
1 triangle, dao (N = 10) 9 quads and 1 triangle; in every case the face list
consists of nothing else. -/
theorem curved_blade_face_counts :
    quad_count katana_blade_faces = 11 - 1 ∧ tri_count katana_blade_faces = 1 ∧
    katana_blade_faces.length = (11 - 1) + 1 ∧
    quad_count khopesh_blade_faces = 12 - 1 ∧ tri_count khopesh_blade_faces = 0 ∧
    khopesh_blade_faces.length = 12 - 1 ∧
    quad_count scimitar_blade_faces = 12 - 1 ∧ tri_count scimitar_blade_faces = 1 ∧
    scimitar_blade_faces.length = (12 - 1) + 1 ∧
    quad_count dao_blade_faces = 10 - 1 ∧ tri_count dao_blade_faces = 1 ∧
    dao_blade_faces.length = (10 - 1) + 1 :=
  by decide

/-- C7: the katana blade has exactly 23 vertices — 22 ring vertices followed
by one tip vertex — and exactly 11 faces: 10 quadrilaterals followed by one
triangle. -/
theorem katana_blade_counts :
    katana_ring_verts.length = 22 ∧
    katana_blade_verts.length = 22 + 1 ∧
    katana_blade_faces.length = 11 ∧
    quad_count katana_blade_faces = 10 ∧
    tri_count katana_blade_faces = 1 ∧
    katana_blade_faces =
      katana_blade_faces.filter (fun f => f.length == 4) ++
        katana_blade_faces.filter (fun f => f.length == 3) :=
  by decide

/-- C8: every style is a pure function of its placement offset: the name,
vertex coordinates and face topology of every component are the same for any
two offsets (the offset enters only the placement), so in particular two
invocations at the same offset produce identical vertex and face data. -/
theorem style_determinism (cos sin : ℚ → ℚ) (o o' : ℚ) :
    sword_data (create_roman_gladius o) = sword_data (create_roman_gladius o') ∧
    sword_data (create_viking_sword o) = sword_data (create_viking_sword o') ∧
    sword_data (create_katana o) = sword_data (create_katana o') ∧
    sword_data (create_khopesh cos sin o) = sword_data (create_khopesh cos sin o') ∧
    sword_data (create_scimitar o) = sword_data (create_scimitar o') ∧
    sword_data (create_claymore o) = sword_data (create_claymore o') ∧
    sword_data (create_longsword o) = sword_data (create_longsword o') ∧
    sword_data (create_dao o) = sword_data (create_dao o') ∧
    sword_data (create_khanda o) = sword_data (create_khanda o') ∧
    sword_data (create_zweihander o) = sword_data (create_zweihander o') :=
  ⟨rfl, rfl, rfl, rfl, rfl, rfl, rfl, rfl, rfl, rfl⟩

/-- C9: every style's call to `join_and_finalize` passes between 2 and 5
components (gladius 4, viking 4, katana 3, khopesh 2, scimitar 3, claymore 4,
longsword 4, dao 3, khanda 5, zweihander 5), so `objects[0]` is always in
range and the join never operates on an empty selection. -/
theorem join_component_counts (cos sin : ℚ → ℚ) (location : ℚ) :
    component_count (create_roman_gladius location) = some 4 ∧
    component_count (create_viking_sword location) = some 4 ∧
    component_count (create_katana location) = some 3 ∧
    component_count (create_khopesh cos sin location) = some 2 ∧
    component_count (create_scimitar location) = some 3 ∧
    component_count (create_claymore location) = some 4 ∧
    component_count (create_longsword location) = some 4 ∧
    component_count (create_dao location) = some 3 ∧
    component_count (create_khanda location) = some 5 ∧
    component_count (create_zweihander location) = some 5 ∧
    (∀ n ∈ ([4, 4, 3, 2, 3, 4, 4, 3, 5, 5] : List ℕ), 2 ≤ n ∧ n ≤ 5) :=
  ⟨rfl, rfl, rfl, rfl, rfl, rfl, rfl, rfl, rfl, rfl, by decide⟩

/-- C10: every face of every component of every style has exactly 3 or 4
indices and they are pairwise distinct, so no degenerate face (fewer than 3
unique indices) is ever submitted to the host mesh builder. -/
theorem no_degenerate_faces :
    ∀ fs ∈ all_style_faces, ∀ f ∈ fs, (f.length = 3 ∨ f.length = 4) ∧ f.Nodup :=
  by decide

/-- Witness for C10 at a concrete input: the gladius blade's first face. -/
theorem no_degenerate_faces_witness :
    (([0, 1, 2, 3] : List ℕ).length = 3 ∨ ([0, 1, 2, 3] : List ℕ).length = 4) ∧
      ([0, 1, 2, 3] : List ℕ).Nodup :=
  no_degenerate_faces gladius_blade_faces (by decide) [0, 1, 2, 3] (by decide)

end RobloxSwords

